import Mathlib

/-!
Verification of the HumidOSH control firmware (HumidOSH.h / HumidOSH.cpp /
SerialCommunication.h / SerialCommunication.cpp) against its natural-language
specification.  The C++ sources are shallowly embedded below: every pure
computation becomes a Lean function, the stateful controller object becomes an
explicit state record with one Lean function per C++ member function, C++
`double` becomes `ℚ`, `uint8_t`/`unsigned long` counters become `Nat`
(overflow cannot occur for the quantities involved within the traces
considered; `millis()` subtraction is wraparound-safe in C and coincides with
`Nat` subtraction on the monotone in-range traces used here), and fallible bus
operations are represented by explicit boolean outcome parameters (oracles).
-/

namespace HumidOSH

/-- `RETRIES_MAX` from HumidOSH.h: maximum number of times to retry a command
if it fails. -/
def RETRIES_MAX : Nat := 10

/-- `PERIOD_DAQ` from HumidOSH.h: period (ms) between each data acquisition. -/
def PERIOD_DAQ : Nat := 1000

/-!
## Retry executor

`bool HumidOSH::retryFunc(bool (HumidOSH::*func)())` and its overloads all
have the identical body:

    uint8_t tries = 0;
    while (tries < RETRIES_MAX)
    {
      if ((this->*func)()) { return true; }
      tries++;
    }
    return false;

We embed the wrapped fallible operation as an oracle `f : Nat → Bool` giving
the outcome of the calls in order (`f 0` is the first call's outcome).  The
embedding additionally counts how many calls were made, which the C++ code
performs implicitly; the `fuel` argument is the number of loop iterations
still possible (`RETRIES_MAX - tries`), making the recursion structural.
-/

/-- One unrolling of the `while (tries < RETRIES_MAX)` loop of `retryFunc`;
returns the result together with the number of calls made to the wrapped
operation from this point on. -/
def retryFuncGo (f : Nat → Bool) : Nat → Nat → Bool × Nat
  | _tries, 0 => (false, 0)
  | tries, fuel + 1 =>
    if tries < RETRIES_MAX then
      if f tries then (true, 1)
      else
        let p := retryFuncGo f (tries + 1) fuel
        (p.1, p.2 + 1)
    else (false, 0)

/-- `HumidOSH::retryFunc`: run the wrapped operation until it succeeds or
`RETRIES_MAX` attempts have failed.  Returns the boolean result and the
number of calls made. -/
def retryFunc (f : Nat → Bool) : Bool × Nat := retryFuncGo f 0 RETRIES_MAX

/-!
## Humidity actuation rule

The actuation block of `HumidOSH::run` (the `else` branch taken when control
is active, the reading is OK, a fresh-for-control flag was pending and error
handling is not active), lines 239-274 of HumidOSH.cpp, plus
`HumidOSH::setPumpDutyCycle` which stores the duty cycle and writes it to the
pump pin.  `humidityControlOutput_` is a `double` (here `ℚ`);
`setPumpDutyCycle` takes a `uint8_t`, so the `double` argument is truncated
toward zero on the call (the value is within `[0, 255)` whenever the
truncating branch is taken, because the PID output is limited to
`[-255, 255]` and the branch requires `dutyMin ≤ O < dutyMax ≤ 255`). -/

structure Actuators where
  /-- duty cycle last written to the pump PWM pin (`analogWrite(pinPump_, ·)`) -/
  pumpPin : Nat
  /-- `pumpDutyCycle_` member (only updated by `setPumpDutyCycle`) -/
  pumpDutyCycle : Nat
  /-- dry-solenoid line (`toggleValveDry`) -/
  valveDry : Bool
  /-- wet/humidify-solenoid line (`toggleValveWet`) -/
  valveWet : Bool
  deriving DecidableEq, Repr

/-- C++ `double → uint8_t` conversion for values in `[0, 256)`: truncation
toward zero; our uses are all at nonnegative values. -/
def ratToUInt8 (q : ℚ) : Nat := (⌊q⌋).toNat

/-- `HumidOSH::setPumpDutyCycle`: store the duty cycle and write it to the
pump pin. -/
def setPumpDutyCycle (d : Nat) (a : Actuators) : Actuators :=
  { a with pumpDutyCycle := d, pumpPin := d }

/-- `HumidOSH::togglePump(false)`: `analogWrite(pinPump_, 0)` — writes the pin
only, leaving the `pumpDutyCycle_` member unchanged. -/
def togglePumpOff (a : Actuators) : Actuators := { a with pumpPin := 0 }

/-- The actuation rule of `HumidOSH::run` (lines 239-274) applied to the PID
output `O`, with configured bounds `dutyMin = pumpDutyCycleMin_`,
`dutyMax = pumpDutyCycleMax_`. -/
def applyHumidityControlOutput (dutyMin dutyMax : Nat) (O : ℚ) (a : Actuators) :
    Actuators :=
  if (dutyMin : ℚ) ≤ O then
    -- Humidifying
    let a := { a with valveWet := true, valveDry := false }
    if (dutyMax : ℚ) ≤ O then setPumpDutyCycle 255 a
    else setPumpDutyCycle (ratToUInt8 O) a
  else if O < 0 ∧ (dutyMin : ℚ) ≤ -O then
    -- Drying
    let a := { a with valveDry := true, valveWet := false }
    if (dutyMax : ℚ) ≤ -O then setPumpDutyCycle 255 a
    else setPumpDutyCycle (ratToUInt8 (-O)) a
  else
    -- Deadband: pump and valves off
    let a := setPumpDutyCycle 0 a
    { a with valveDry := false, valveWet := false }

/-!
## Controller state machine

The mutable fields of the `HumidOSH` class that the DAQ scheduler, the
humidity control policy and the fan control policy read or write, together
with the actuator output lines.  LEDs and the (active-low) fan power rail pin
are modelled as logical on/off flags.
-/

/-- Modelled from the spec: the internal history of the external PID
controller (`PID_modified` library, not part of this repository) — an
accumulated integral term plus the last sample value and last sample time.
The PID arithmetic itself (`Compute`) is out of scope and is represented in
`controlStep` by an oracle. -/
structure PIDState where
  integral : ℚ
  lastInput : ℚ
  lastTime : Nat
  deriving DecidableEq, Repr

/-- Modelled from the spec: `PID::Reset()` clears the controller's internal
history (the integral term). -/
def PIDReset (p : PIDState) : PIDState := { p with integral := 0 }

/-- Configuration constants supplied to the `HumidOSH` constructor, plus the
settle delay `PERIOD_DAQ_HUMIDITY_TRIGGER = SHT3x::DURATION_HIGREP + 300`
(`DURATION_HIGREP` lives in the external SHT3x driver; the delay is kept
abstract here and instantiated at `315` ms in concrete runs). -/
structure Config where
  pumpDutyCycleMin : Nat
  pumpDutyCycleMax : Nat
  settle : Nat
  deriving DecidableEq, Repr

/-- The controller-visible state of the `HumidOSH` object. -/
structure HState where
  -- DAQ scheduler
  DAQTimerStart : Nat
  humidityTriggered : Bool
  humidityTriggeredOK : Bool
  -- humidity reading status
  humidityOK : Bool
  newHumidityReadingPrint : Bool
  newHumidityReadingControl : Bool
  humidity : ℚ
  humidityTarget : ℚ
  -- humidity control policy
  humidityControlActive : Bool
  humidityErrorHandlingActive : Bool
  humidityControlRecentlyStopped : Bool
  humidityControlOutput : ℚ
  pid : PIDState
  ledRH : Bool
  -- actuators
  act : Actuators
  -- fan
  fanSpeedOK : Bool
  fanSpeedControlActive : Bool
  newFanSpeedReadingPrint : Bool
  fanSpeed : ℚ
  fanSpeedTarget : ℚ
  fanPowered : Bool
  ledFan : Bool
  deriving DecidableEq, Repr

/-- Inputs of one DAQ pass of `HumidOSH::run`: the clock value and the
outcomes of the (already retry-wrapped) bus operations.  `fetchOK`/`fetchRH`
model `retryFunc(&HumidOSH::getHumidity)` and the value the sensor returns on
success; `trigOK` models `retryFunc(&HumidOSH::triggerHumidity)`;
`fanOK`/`fanRPM` model `retryFunc(&HumidOSH::getFanSpeed)`. -/
structure DaqIn where
  now : Nat
  trigOK : Bool
  fetchOK : Bool
  fetchRH : ℚ
  fanOK : Bool
  fanRPM : ℚ
  deriving DecidableEq, Repr

/-- The measurement-grabbing/triggering section of `HumidOSH::run`
(lines 176-216 of HumidOSH.cpp). -/
def daqStep (cfg : Config) (i : DaqIn) (s : HState) : HState :=
  if PERIOD_DAQ - cfg.settle ≤ i.now - s.DAQTimerStart then
    if s.humidityTriggered ∧ PERIOD_DAQ ≤ i.now - s.DAQTimerStart then
      -- Time to grab measurements.
      let s := { s with DAQTimerStart := i.now }
      -- Relative humidity: the fetch happens only if the trigger had succeeded.
      let s :=
        if s.humidityTriggeredOK ∧ i.fetchOK then
          { s with humidityOK := true, newHumidityReadingPrint := true,
                   newHumidityReadingControl := true, humidity := i.fetchRH }
        else
          { s with humidityOK := false, newHumidityReadingPrint := false,
                   newHumidityReadingControl := false }
      -- Fan speed
      let s :=
        if i.fanOK then
          { s with fanSpeedOK := true, newFanSpeedReadingPrint := true,
                   fanSpeed := i.fanRPM }
        else
          { s with fanSpeedOK := false, newFanSpeedReadingPrint := false }
      { s with humidityTriggered := false }
    else if ¬ s.humidityTriggered then
      -- Trigger the SHT3x sensor to perform a measurement; the triggered flag
      -- is set even when the trigger failed after retries.
      { s with humidityTriggeredOK := i.trigOK, humidityTriggered := true }
    else s
  else s

/-- The humidity-control section of `HumidOSH::run` (lines 219-287 of
HumidOSH.cpp).  `compute` is the external `PID::Compute` oracle: given the
controller history, the current input and target and the clock, it returns
the new output together with the updated history. -/
def controlStep (cfg : Config)
    (compute : PIDState → ℚ → ℚ → Nat → ℚ × PIDState)
    (now : Nat) (s : HState) : HState :=
  if s.humidityControlActive then
    if s.humidityOK then
      if s.newHumidityReadingControl then
        let s := { s with newHumidityReadingControl := false }
        if s.humidityErrorHandlingActive then
          -- Just recovered from an error: restart the PID and seed it with the
          -- current reading; do not drive the actuators this tick.
          { s with humidityErrorHandlingActive := false,
                   pid := { (PIDReset s.pid) with
                            lastInput := s.humidity
                            lastTime := now } }
        else
          -- Compute the PID output and apply the actuation rule.
          let r := compute s.pid s.humidity s.humidityTarget now
          let s := { s with humidityControlOutput := r.1, pid := r.2 }
          { s with act := applyHumidityControlOutput cfg.pumpDutyCycleMin
                            cfg.pumpDutyCycleMax s.humidityControlOutput s.act }
      else s
    else if ¬ s.humidityErrorHandlingActive then
      -- Measurement error not yet handled: fail-safe the actuators.
      { s with humidityErrorHandlingActive := true,
               act := { (togglePumpOff s.act) with
                        valveDry := false
                        valveWet := false } }
    else s
  else s

/-- One full tick of `HumidOSH::run` as far as the DAQ scheduler and the
humidity control policy are concerned (the trailing `updateScreen()` call
only renders, except for the hold-gesture screen, whose control effect is
modelled separately by `holdStopHumidity`). -/
def runTick (cfg : Config)
    (compute : PIDState → ℚ → ℚ → Nat → ℚ × PIDState)
    (i : DaqIn) (s : HState) : HState :=
  controlStep cfg compute i.now (daqStep cfg i s)

/-- `HumidOSH::toggleHumidityControl` (lines 1464-1481 of HumidOSH.cpp). -/
def toggleHumidityControl (enable : Bool) (s : HState) : HState :=
  if enable then
    { s with ledRH := true, humidityControlActive := true, pid := PIDReset s.pid }
  else
    let s := { s with ledRH := false, humidityControlActive := false }
    let s := { s with act := setPumpDutyCycle 0 s.act }
    { s with act := { s.act with valveDry := false, valveWet := false } }

/-- The hold-to-stop gesture completing for the humidity loop
(`updateScreen`, SCREEN_PAGE_HOLD branch, lines 906-917 of HumidOSH.cpp):
mark the loop recently stopped and disable humidity control. -/
def holdStopHumidity (s : HState) : HState :=
  toggleHumidityControl false { s with humidityControlRecentlyStopped := true }

/-- `HumidOSH::toggleFanSpeedControl` (lines 1534-1565 of HumidOSH.cpp).
`busOK` is the outcome of the external `EMC2301::setFanSpeedTarget` bus
write.  Returns the C++ boolean result together with the new state. -/
def toggleFanSpeedControl (busOK : Bool) (enable : Bool) (s : HState) :
    Bool × HState :=
  if enable then
    if busOK then
      (true, { s with fanPowered := true, ledFan := true,
                      fanSpeedControlActive := true })
    else (false, s)
  else
    -- Set the target to 0 so the EMC2301 stops seeking a target fan speed.
    if busOK then
      (true, { s with fanPowered := false, ledFan := false,
                      fanSpeedControlActive := false })
    else (false, s)

/-- `retryFunc(&HumidOSH::toggleFanSpeedControl, enable)`: the bool-parameter
overload of the retry executor applied to `toggleFanSpeedControl`, with the
bus outcome of attempt `k` given by `outcomes k`. -/
def retryToggleFanGo (outcomes : Nat → Bool) (enable : Bool) :
    Nat → Nat → HState → Bool × HState
  | _tries, 0, s => (false, s)
  | tries, fuel + 1, s =>
    if tries < RETRIES_MAX then
      let r := toggleFanSpeedControl (outcomes tries) enable s
      if r.1 then (true, r.2) else retryToggleFanGo outcomes enable (tries + 1) fuel r.2
    else (false, s)

/-- The retried fan toggle as invoked from `handleButtonControl` and the hold
gesture. -/
def retryToggleFan (outcomes : Nat → Bool) (enable : Bool) (s : HState) :
    Bool × HState :=
  retryToggleFanGo outcomes enable 0 RETRIES_MAX s

/-- The flag state established by the `HumidOSH` constructor
(lines 93-106 of HumidOSH.cpp) together with the pin levels it writes
(pump/valves/LEDs low, fan rail unpowered).  Numeric members left
uninitialized by the constructor are taken as zero here; none of the claims
depends on their initial values. -/
def initState : HState where
  DAQTimerStart := 0
  humidityTriggered := false
  humidityTriggeredOK := false
  humidityOK := false
  newHumidityReadingPrint := false
  newHumidityReadingControl := false
  humidity := 0
  humidityTarget := 0
  humidityControlActive := false
  humidityErrorHandlingActive := false
  humidityControlRecentlyStopped := false
  humidityControlOutput := 0
  pid := ⟨0, 0, 0⟩
  ledRH := false
  act := ⟨0, 0, false, false⟩
  fanSpeedOK := false
  fanSpeedControlActive := false
  newFanSpeedReadingPrint := false
  fanSpeed := 0
  fanSpeedTarget := 0
  fanPowered := false
  ledFan := false

/-!
## Numeric input editor

`handleInputNumber`, `handleInputDelete`, `handleInputDot` and
`resetInputVars` (lines 1290-1431 of HumidOSH.cpp).  The display calls
(`resetScreenInput`, `printToDisplay`, `idleScreenInput`) only render and are
omitted; the state fields mirror the class members exactly.  C's `trunc` on
the nonnegative values arising here is `⌊·⌋`.
-/

structure InputState where
  decimalUsed : Bool
  inputCharCount : Nat
  inputIntCount : Nat
  inputDecimalCount : Nat
  inputValue : ℚ
  deriving DecidableEq, Repr

/-- `HumidOSH::resetInputVars`. -/
def resetInputVars : InputState :=
  { decimalUsed := false, inputCharCount := 0, inputIntCount := 0
    inputDecimalCount := 0, inputValue := 0 }

/-- C `trunc` (truncation toward zero) on `ℚ`. -/
def ratTrunc (q : ℚ) : ℚ := if 0 ≤ q then (⌊q⌋ : ℚ) else (⌈q⌉ : ℚ)

/-- `HumidOSH::handleInputNumber` for the digit key `d` (value `0`-`9`),
with the active field's `charMax` and `decimalsMax`. -/
def handleInputNumber (d : Nat) (charMax decimalsMax : Nat)
    (s : InputState) : InputState :=
  if s.inputCharCount + 1 ≤ charMax then
    if s.decimalUsed then
      if s.inputDecimalCount + 1 ≤ decimalsMax then
        { s with inputCharCount := s.inputCharCount + 1
                 inputDecimalCount := s.inputDecimalCount + 1
                 inputValue :=
                   s.inputValue + (d : ℚ) / 10 ^ (s.inputDecimalCount + 1) }
      else s
    else
      { s with inputCharCount := s.inputCharCount + 1
               inputIntCount := s.inputIntCount + 1
               inputValue := s.inputValue * 10 + (d : ℚ) }
  else s

/-- `HumidOSH::handleInputDelete`.  (Its `charMax` argument is used only for
redrawing the screen and therefore does not appear here.) -/
def handleInputDelete (s : InputState) : InputState :=
  if 0 < s.inputCharCount then
    if s.decimalUsed then
      if 0 < s.inputDecimalCount then
        -- Remove a decimal digit.
        let c := s.inputDecimalCount - 1
        { s with inputDecimalCount := c, inputCharCount := s.inputCharCount - 1
                 inputValue :=
                   if 0 < c then ratTrunc (s.inputValue * 10 ^ c) / 10 ^ c
                   else ratTrunc s.inputValue }
      else
        -- Remove the decimal point character (the value is only re-rendered).
        { s with inputCharCount := s.inputCharCount - 1, decimalUsed := false }
    else
      -- Only integers are present.
      { s with inputIntCount := s.inputIntCount - 1
               inputCharCount := s.inputCharCount - 1
               inputValue := ratTrunc (s.inputValue / 10) }
  else s

/-- `HumidOSH::handleInputDot`. -/
def handleInputDot (charMax decimalsMax : Nat) (s : InputState) : InputState :=
  if 0 < decimalsMax ∧ s.inputCharCount < charMax ∧
      s.decimalUsed = false ∧ 0 < s.inputIntCount then
    { s with inputCharCount := s.inputCharCount + 1, decimalUsed := true }
  else s

/-- A key event fed to the input editor. -/
inductive InputEvent where
  | num (d : Nat)
  | dot
  | del
  deriving DecidableEq, Repr

/-- Apply one key event, with the active field's `charMax`/`decimalsMax`. -/
def applyInputEvent (charMax decimalsMax : Nat) (s : InputState) :
    InputEvent → InputState
  | .num d => handleInputNumber d charMax decimalsMax s
  | .dot => handleInputDot charMax decimalsMax s
  | .del => handleInputDelete s

/-- Apply a sequence of key events from left to right. -/
def runInputEvents (charMax decimalsMax : Nat) (s : InputState) :
    List InputEvent → InputState
  | [] => s
  | e :: es =>
    runInputEvents charMax decimalsMax (applyInputEvent charMax decimalsMax s e) es

/-- The screen pages (`SCREEN_PAGE` enum in HumidOSH.h). -/
inductive SCREEN_PAGE where
  | READINGS | HUMIDITYADJ | FANSPEEDADJ | CAL | CAL_POINT | CAL_RESET
  | HOLD | MINVAL | MAXVAL
  deriving DecidableEq, Repr

/-- `HumidOSH::saveInput` (lines 1390-1421 of HumidOSH.cpp): validate the
entered value against `[min, max]`.  Returns the boolean result, the new
value of the by-reference `targetBuffer`, and the error screen routed to via
`changeScreenPage` (if any).  The flash-timer bookkeeping and the push of an
accepted fan target to the tachometer (which does not change `targetBuffer`)
are not represented. -/
def saveInput (inputValue targetBuffer minV maxV : ℚ) :
    Bool × ℚ × Option SCREEN_PAGE :=
  if maxV < inputValue then (false, targetBuffer, some .MAXVAL)
  else if inputValue < minV then (false, targetBuffer, some .MINVAL)
  else (true, inputValue, none)

/-! ## Input editor invariant -/


/-- The inductive invariant of the numeric input editor: the character count
is the digit counts plus one for the decimal point when present, the
character count respects the field's budget, the decimal-digit count
respects the field's decimal budget, and without a decimal point there are
no decimal digits. -/
def inputInv (charMax decimalsMax : Nat) (s : InputState) : Prop :=
  s.inputCharCount =
      s.inputIntCount + s.inputDecimalCount + (if s.decimalUsed then 1 else 0) ∧
    s.inputCharCount ≤ charMax ∧
    s.inputDecimalCount ≤ decimalsMax ∧
    (s.decimalUsed = false → s.inputDecimalCount = 0)

/-! ## Reachable states of the controller -/


/-- The operations that mutate the controller state: a tick of `run`
(DAQ + humidity control policy), enabling/disabling humidity control from the
keypad, the hold-to-stop gesture completing for humidity, and the retried fan
toggle. -/
inductive Op where
  | tick (i : DaqIn)
  | toggleHum (enable : Bool)
  | holdStop
  | fanToggle (outcomes : Nat → Bool) (enable : Bool)

/-- Apply one operation to the controller state. -/
def applyOp (cfg : Config) (compute : PIDState → ℚ → ℚ → Nat → ℚ × PIDState) :
    Op → HState → HState
  | .tick i, s => runTick cfg compute i s
  | .toggleHum b, s => toggleHumidityControl b s
  | .holdStop, s => holdStopHumidity s
  | .fanToggle oc b, s => (retryToggleFan oc b s).2

/-- Apply a sequence of operations from left to right. -/
def runOps (cfg : Config) (compute : PIDState → ℚ → ℚ → Nat → ℚ × PIDState) :
    List Op → HState → HState
  | [], s => s
  | op :: ops, s => runOps cfg compute ops (applyOp cfg compute op s)

/-- The humidity actuators are de-energized: pump pin at duty 0 and both
solenoid valves closed. -/
def actuatorsOff (a : Actuators) : Prop :=
  a.pumpPin = 0 ∧ a.valveDry = false ∧ a.valveWet = false

/-- The fail-safe property: whenever error handling is active, humidity
control is inactive, or the humidity reading is not ok, the humidity
actuators are de-energized. -/
def humiditySafe (s : HState) : Prop :=
  (s.humidityErrorHandlingActive = true ∨ s.humidityControlActive = false ∨
      s.humidityOK = false) →
    actuatorsOff s.act

/-- A constant PID oracle for concrete runs: always outputs `O` and leaves
the controller history unchanged. -/
def computeConst (O : ℚ) : PIDState → ℚ → ℚ → Nat → ℚ × PIDState :=
  fun p _ _ _ => (O, p)

/-- The configuration used in concrete runs: `pumpDutyCycleMin = 60`,
`pumpDutyCycleMax = 255`, and settle delay
`PERIOD_DAQ_HUMIDITY_TRIGGER = 315` ms (`SHT3x::DURATION_HIGREP` = 15 ms
for the SHT35 in high-repeatability mode, plus the 300 ms safety margin). -/
def cfg60 : Config := ⟨60, 255, 315⟩

/-- The operation sequence exhibiting a reachable state violating the C5
invariant: enable humidity control, tick once with a failed reading (error
handling engages), then complete the hold-to-stop gesture. -/
def C5ops : List Op :=
  [.toggleHum true, .tick ⟨0, false, false, 0, false, 0⟩, .holdStop]

/-- The tick with input `i` executed from state `s` issues the sensor
trigger (`retryFunc(&HumidOSH::triggerHumidity)` is reached): the outer DAQ
window is open and no measurement is currently triggered. -/
def triggersAt (cfg : Config) (i : DaqIn) (s : HState) : Prop :=
  PERIOD_DAQ - cfg.settle ≤ i.now - s.DAQTimerStart ∧
    s.humidityTriggered = false

instance (cfg : Config) (i : DaqIn) (s : HState) :
    Decidable (triggersAt cfg i s) := by
  unfold triggersAt; infer_instance

/-- The tick with input `i` executed from state `s` performs the humidity
fetch (`retryFunc(&HumidOSH::getHumidity)` is reached): a full period has
elapsed since `DAQTimerStart_`, a measurement is triggered, and the trigger
had succeeded (`humidityTriggeredOK_`, without which `getHumidity` is
short-circuited away). -/
def fetchesAt (i : DaqIn) (s : HState) : Prop :=
  PERIOD_DAQ ≤ i.now - s.DAQTimerStart ∧ s.humidityTriggered = true ∧
    s.humidityTriggeredOK = true

instance (i : DaqIn) (s : HState) : Decidable (fetchesAt i s) := by
  unfold fetchesAt; infer_instance

/-- Run a sequence of ticks of `run`, in order. -/
def runTicks (cfg : Config) (compute : PIDState → ℚ → ℚ → Nat → ℚ × PIDState) :
    List DaqIn → HState → HState
  | [], s => s
  | i :: ticks, s => runTicks cfg compute ticks (runTick cfg compute i s)

/-- Along the tick sequence, no tick reaches the fetch branch. -/
def noFetchRun (cfg : Config)
    (compute : PIDState → ℚ → ℚ → Nat → ℚ × PIDState) :
    List DaqIn → HState → Prop
  | [], _ => True
  | i :: ticks, s =>
    ¬ (PERIOD_DAQ ≤ i.now - s.DAQTimerStart ∧ s.humidityTriggered = true) ∧
      noFetchRun cfg compute ticks (runTick cfg compute i s)

end HumidOSH

namespace SerialCommunication

/-!
## Serial command framer

`SerialCommunication::processIncoming` (SerialCommunication.cpp lines
37-135) embedded over the pending serial input modelled as a `List Char`.
`Serial.peek`/`Serial.read`/`Serial.readBytesUntil` become explicit stream
operations; `strchr`, `strncpy` and the `strtok` tokenization (which skips
empty tokens) become list operations.
-/

def SERIAL_CMD_START : Char := '^'
def SERIAL_CMD_DAQ_START : Char := 'd'
def SERIAL_CMD_DAQ_STOP : Char := 's'
def SERIAL_CMD_SEPARATOR : Char := '|'
def SERIAL_CMD_END : Char := '@'
def SERIAL_CMD_EOL : Char := '\n'

def MAXPARAM_DAQ_START : Nat := 0
def MAXPARAM_DAQ_STOP : Nat := 0

/-- `serialBufferLength - 1`, the byte limit passed to `readBytesUntil`. -/
def READ_LIMIT : Nat := 127

/-- `Serial.readBytesUntil(term, buf, maxLen)`: consume characters until the
terminator is read (consumed but not stored) or `maxLen` characters have been
stored; returns the stored buffer and the remaining stream. -/
def readBytesUntil (term : Char) : Nat → List Char → List Char × List Char
  | 0, input => ([], input)
  | _ + 1, [] => ([], [])
  | maxLen + 1, c :: rest =>
    if c = term then ([], rest)
    else
      let p := readBytesUntil term maxLen rest
      (c :: p.1, p.2)

/-- `strtok` over the whole buffer with a single-character delimiter: the
maximal non-empty runs between delimiters. -/
def tokenize (sep : Char) (l : List Char) : List (List Char) :=
  (l.splitOn sep).filter (· ≠ [])

/-- The expected parameter count for a command selector (`switch (tokenPtr[0])`
in `processIncoming`); `none` means an unknown command. -/
def paramsCountOf (c : Char) : Option Nat :=
  if c = SERIAL_CMD_DAQ_START then some MAXPARAM_DAQ_START
  else if c = SERIAL_CMD_DAQ_STOP then some MAXPARAM_DAQ_STOP
  else none

/-- The fragment-collection phase of `processIncoming` generalized over the
selector table: given the tokens of the trimmed buffer, succeed with the
fragments exactly when the first token's selector is known and the number of
tokens is the selector plus exactly the required parameter count.  The
`do`-`while` loop consumes tokens until the expected count is reached or the
tokens run out; the two checks after it reject a shortfall and leftovers. -/
def collectFragments (table : Char → Option Nat) (toks : List (List Char)) :
    Option (List (List Char)) :=
  match toks with
  | [] => none  -- not a single fragment is available
  | t :: _ =>
    match table (t.headD ' ') with
    | none => none  -- unknown command
    | some paramsCount =>
      if toks.length < paramsCount + 1 then none      -- not enough params
      else if paramsCount + 1 < toks.length then none -- too many params
      else some toks

/-- `SerialCommunication::processIncoming`.  Returns whether a command was
successfully parsed, the extracted fragments (command selector first) on
success, and the serial input remaining after the call. -/
def processIncoming (input : List Char) :
    Bool × Option (List (List Char)) × List Char :=
  match input with
  | [] => (false, none, [])  -- peek returns -1: not SERIAL_CMD_START
  | c :: rest =>
    if c = SERIAL_CMD_START then
      let p := readBytesUntil SERIAL_CMD_EOL READ_LIMIT input
      let buf := p.1
      -- strchr(serialBuffer, SERIAL_CMD_END)
      match buf.indexOf? SERIAL_CMD_END with
      | none => (false, none, p.2)  -- SERIAL_CMD_END wasn't seen
      | some endPos =>
        if endPos + 1 = buf.length then
          -- strncpy(trimmedSerialBuffer, serialBuffer + 1, endPos - 1)
          let trimmed := (buf.drop 1).take (endPos - 1)
          match collectFragments paramsCountOf
              (tokenize SERIAL_CMD_SEPARATOR trimmed) with
          | some frags => (true, some frags, p.2)
          | none => (false, none, p.2)
        else (false, none, p.2)  -- content follows SERIAL_CMD_END
    else
      -- Grab one byte, but don't store it: resynchronize the stream.
      (false, none, rest)

end SerialCommunication

open HumidOSH SerialCommunication

/-!
# Claims

One theorem per claim of the specification, stated over the embedding above.
-/

/-! ## C3: bounded retry -/

lemma retryFuncGo_all_fail (f : Nat → Bool) :
    ∀ fuel tries, tries + fuel = RETRIES_MAX →
      (∀ j, tries ≤ j → j < RETRIES_MAX → f j = false) →
      retryFuncGo f tries fuel = (false, fuel) := by
  intro fuel
  induction fuel with
  | zero => intro tries _ _; rfl
  | succ n ih =>
    intro tries htot hf
    have hlt : tries < RETRIES_MAX := by omega
    have hft : f tries = false := hf tries le_rfl hlt
    simp only [retryFuncGo, hlt, if_true, hft, if_false, Bool.false_eq_true]
    rw [ih (tries + 1) (by omega) (fun j hj hj' => hf j (by omega) hj')]

lemma retryFuncGo_first_success (f : Nat → Bool) :
    ∀ fuel tries i, tries + fuel = RETRIES_MAX → tries ≤ i → i < RETRIES_MAX →
      f i = true → (∀ j, tries ≤ j → j < i → f j = false) →
      retryFuncGo f tries fuel = (true, i + 1 - tries) := by
  intro fuel
  induction fuel with
  | zero => intro tries i htot hti hi _ _; omega
  | succ n ih =>
    intro tries i htot hti hi hfi hf
    have hlt : tries < RETRIES_MAX := by omega
    rcases Nat.eq_or_lt_of_le hti with heq | hlt'
    · subst heq
      simp only [retryFuncGo, hlt, if_true, hfi, if_true]
      congr 1
      omega
    · have hft : f tries = false := hf tries le_rfl hlt'
      simp only [retryFuncGo, hlt, if_true, hft, Bool.false_eq_true, if_false]
      rw [ih (tries + 1) i (by omega) (by omega) hi hfi
        (fun j hj hj' => hf j (by omega) hj')]
      simp only [Prod.mk.injEq, true_and]
      omega

/-- C3: for every bounded-retry invocation of `retryFunc` wrapping a fallible
operation (the oracle `f` giving the outcome of each call in order): if the
operation succeeds on attempt `k` with `k ≤ 10` (and failed on every earlier
attempt), `retryFunc` returns `true` having called the operation exactly `k`
times; if the operation fails on all attempts, `retryFunc` returns `false`
having called it exactly `10` times.  The call count being `k` (resp. `10`)
and the oracle being consulted only at indices below it express that no call
is made beyond the first success (resp. the 10th failure). -/
theorem C3_retry_exact_calls (f : Nat → Bool) (k : Nat) :
    (1 ≤ k → k ≤ RETRIES_MAX → f (k - 1) = true →
      (∀ j, j < k - 1 → f j = false) → retryFunc f = (true, k)) ∧
    ((∀ j, j < RETRIES_MAX → f j = false) →
      retryFunc f = (false, RETRIES_MAX)) := by
  constructor
  · intro h1 h10 hk hf
    have := retryFuncGo_first_success f RETRIES_MAX 0 (k - 1) (by omega)
      (by omega) (by omega) hk (fun j _ hj => hf j hj)
    rw [retryFunc, this]
    congr 1
    omega
  · intro hf
    exact retryFuncGo_all_fail f RETRIES_MAX 0 rfl (fun j _ hj => hf j hj)

/-- Witness for C3: an operation succeeding on its third call yields
`(true, 3)`; an always-failing operation yields `(false, 10)`. -/
theorem C3_retry_exact_calls_witness :
    retryFunc (fun j => j == 2) = (true, 3) ∧
      retryFunc (fun _ => false) = (false, 10) :=
  ⟨(C3_retry_exact_calls (fun j => j == 2) 3).1 (by decide) (by decide)
      (by decide) (by decide),
    (C3_retry_exact_calls (fun _ => false) 0).2 (fun _ _ => rfl)⟩


lemma inputInv_reset (charMax decimalsMax : Nat) :
    inputInv charMax decimalsMax resetInputVars :=
  ⟨rfl, Nat.zero_le _, Nat.zero_le _, fun _ => rfl⟩

lemma inputInv_apply (charMax decimalsMax : Nat) (s : InputState)
    (e : InputEvent) (h : inputInv charMax decimalsMax s) :
    inputInv charMax decimalsMax (applyInputEvent charMax decimalsMax s e) := by
  obtain ⟨h1, h2, h3, h4⟩ := h
  cases e with
  | num d =>
    by_cases hdu : s.decimalUsed = true <;>
      [skip; rw [Bool.not_eq_true] at hdu] <;>
      simp only [applyInputEvent, handleInputNumber, hdu, if_true,
        Bool.false_eq_true, if_false] <;>
      split_ifs with hc hd <;>
      refine ⟨?_, ?_, ?_, ?_⟩ <;>
      simp_all [inputInv] <;> omega
  | dot =>
    simp only [applyInputEvent, handleInputDot]
    split_ifs with hc
    · obtain ⟨hdm, hcm, hdu, hint⟩ := hc
      refine ⟨?_, ?_, ?_, ?_⟩ <;> simp_all <;> omega
    · exact ⟨h1, h2, h3, h4⟩
  | del =>
    by_cases hdu : s.decimalUsed = true <;>
      [skip; rw [Bool.not_eq_true] at hdu] <;>
      simp only [applyInputEvent, handleInputDelete, hdu, if_true,
        Bool.false_eq_true, if_false] <;>
      split_ifs with hc hd <;>
      refine ⟨?_, ?_, ?_, ?_⟩ <;>
      simp_all <;> omega

lemma inputInv_run (charMax decimalsMax : Nat) :
    ∀ (es : List InputEvent) (s : InputState),
      inputInv charMax decimalsMax s →
      inputInv charMax decimalsMax (runInputEvents charMax decimalsMax s es) := by
  intro es
  induction es with
  | nil => intro s h; exact h
  | cons e es ih =>
    intro s h
    exact ih _ (inputInv_apply charMax decimalsMax s e h)


lemma daqStep_preserves (cfg : Config) (i : DaqIn) (s : HState) :
    (daqStep cfg i s).act = s.act ∧
      (daqStep cfg i s).humidityControlActive = s.humidityControlActive ∧
      (daqStep cfg i s).humidityErrorHandlingActive =
        s.humidityErrorHandlingActive := by
  unfold daqStep
  split_ifs <;> simp_all <;> split_ifs <;> simp_all

/-! ### Branch lemmas for `controlStep` and the operations -/

lemma controlStep_not_active (cfg : Config) (compute) (now : Nat) (s : HState)
    (h : s.humidityControlActive = false) :
    controlStep cfg compute now s = s := by
  simp [controlStep, h]

lemma controlStep_not_fresh (cfg : Config) (compute) (now : Nat) (s : HState)
    (hA : s.humidityControlActive = true) (hOK : s.humidityOK = true)
    (hF : s.newHumidityReadingControl = false) :
    controlStep cfg compute now s = s := by
  simp [controlStep, hA, hOK, hF]

lemma controlStep_recovery_eq (cfg : Config) (compute) (now : Nat) (s : HState)
    (hA : s.humidityControlActive = true) (hOK : s.humidityOK = true)
    (hF : s.newHumidityReadingControl = true)
    (hE : s.humidityErrorHandlingActive = true) :
    controlStep cfg compute now s =
      { s with newHumidityReadingControl := false
               humidityErrorHandlingActive := false
               pid := ⟨0, s.humidity, now⟩ } := by
  simp [controlStep, hA, hOK, hF, hE, PIDReset]

lemma controlStep_actuate_eq (cfg : Config) (compute) (now : Nat) (s : HState)
    (hA : s.humidityControlActive = true) (hOK : s.humidityOK = true)
    (hF : s.newHumidityReadingControl = true)
    (hE : s.humidityErrorHandlingActive = false) :
    controlStep cfg compute now s =
      { s with newHumidityReadingControl := false
               humidityControlOutput :=
                 (compute s.pid s.humidity s.humidityTarget now).1
               pid := (compute s.pid s.humidity s.humidityTarget now).2
               act := applyHumidityControlOutput cfg.pumpDutyCycleMin
                        cfg.pumpDutyCycleMax
                        (compute s.pid s.humidity s.humidityTarget now).1
                        s.act } := by
  simp [controlStep, hA, hOK, hF, hE]

lemma controlStep_failsafe_eq (cfg : Config) (compute) (now : Nat) (s : HState)
    (hA : s.humidityControlActive = true) (hOK : s.humidityOK = false)
    (hE : s.humidityErrorHandlingActive = false) :
    controlStep cfg compute now s =
      { s with humidityErrorHandlingActive := true
               act := ⟨0, s.act.pumpDutyCycle, false, false⟩ } := by
  simp [controlStep, hA, hOK, hE, togglePumpOff]

lemma controlStep_error_pending (cfg : Config) (compute) (now : Nat)
    (s : HState) (hA : s.humidityControlActive = true)
    (hOK : s.humidityOK = false)
    (hE : s.humidityErrorHandlingActive = true) :
    controlStep cfg compute now s = s := by
  simp [controlStep, hA, hOK, hE]

lemma toggleHumidityControl_false_eq (s : HState) :
    toggleHumidityControl false s =
      { s with ledRH := false, humidityControlActive := false,
               act := ⟨0, 0, false, false⟩ } := by
  simp [toggleHumidityControl, setPumpDutyCycle]

lemma toggleHumidityControl_true_eq (s : HState) :
    toggleHumidityControl true s =
      { s with ledRH := true, humidityControlActive := true,
               pid := PIDReset s.pid } := by
  simp [toggleHumidityControl]

lemma toggleFanSpeedControl_humidity_fields (busOK enable : Bool) (s : HState) :
    ((toggleFanSpeedControl busOK enable s).2.act = s.act ∧
      (toggleFanSpeedControl busOK enable s).2.humidityControlActive =
        s.humidityControlActive ∧
      (toggleFanSpeedControl busOK enable s).2.humidityErrorHandlingActive =
        s.humidityErrorHandlingActive ∧
      (toggleFanSpeedControl busOK enable s).2.humidityOK = s.humidityOK) := by
  unfold toggleFanSpeedControl
  cases enable <;> cases busOK <;> simp

lemma retryToggleFanGo_humidity_fields (oc : Nat → Bool) (enable : Bool) :
    ∀ fuel tries (s : HState),
      ((retryToggleFanGo oc enable tries fuel s).2.act = s.act ∧
        (retryToggleFanGo oc enable tries fuel s).2.humidityControlActive =
          s.humidityControlActive ∧
        (retryToggleFanGo oc enable tries fuel s).2.humidityErrorHandlingActive =
          s.humidityErrorHandlingActive ∧
        (retryToggleFanGo oc enable tries fuel s).2.humidityOK =
          s.humidityOK) := by
  intro fuel
  induction fuel with
  | zero => intro tries s; exact ⟨rfl, rfl, rfl, rfl⟩
  | succ n ih =>
    intro tries s
    unfold retryToggleFanGo
    by_cases h : tries < RETRIES_MAX
    · rw [if_pos h]
      obtain ⟨h1, h2, h3, h4⟩ := toggleFanSpeedControl_humidity_fields
        (oc tries) enable s
      by_cases hr : (toggleFanSpeedControl (oc tries) enable s).1 = true
      · rw [if_pos hr]
        exact ⟨h1, h2, h3, h4⟩
      · rw [if_neg hr]
        obtain ⟨g1, g2, g3, g4⟩ :=
          ih (tries + 1) (toggleFanSpeedControl (oc tries) enable s).2
        exact ⟨g1.trans h1, g2.trans h2, g3.trans h3, g4.trans h4⟩
    · rw [if_neg h]
      exact ⟨rfl, rfl, rfl, rfl⟩

/-! ### The fail-safe invariant -/

lemma runTick_safe (cfg : Config) (compute) (i : DaqIn) (s : HState)
    (h : humiditySafe s) : humiditySafe (runTick cfg compute i s) := by
  obtain ⟨hact, hA, hE⟩ := daqStep_preserves cfg i s
  unfold runTick
  by_cases h1 : (daqStep cfg i s).humidityControlActive = true
  · by_cases h2 : (daqStep cfg i s).humidityOK = true
    · by_cases h3 : (daqStep cfg i s).newHumidityReadingControl = true
      · by_cases h4 : (daqStep cfg i s).humidityErrorHandlingActive = true
        · rw [controlStep_recovery_eq cfg compute i.now _ h1 h2 h3 h4]
          intro hant
          simp only at hant
          rcases hant with hc | hc | hc <;> simp_all
        · rw [controlStep_actuate_eq cfg compute i.now _ h1 h2 h3
            (Bool.not_eq_true _ ▸ h4)]
          intro hant
          simp only at hant
          rcases hant with hc | hc | hc <;> simp_all
      · rw [controlStep_not_fresh cfg compute i.now _ h1 h2
          (Bool.not_eq_true _ ▸ h3)]
        intro hant
        rcases hant with hc | hc | hc
        · rw [hact]; exact h (Or.inl (hE ▸ hc))
        · simp_all
        · simp_all
    · by_cases h4 : (daqStep cfg i s).humidityErrorHandlingActive = true
      · rw [controlStep_error_pending cfg compute i.now _ h1
          (Bool.not_eq_true _ ▸ h2) h4]
        intro _
        rw [hact]; exact h (Or.inl (hE ▸ h4))
      · rw [controlStep_failsafe_eq cfg compute i.now _ h1
          (Bool.not_eq_true _ ▸ h2) (Bool.not_eq_true _ ▸ h4)]
        intro _
        exact ⟨rfl, rfl, rfl⟩
  · rw [controlStep_not_active cfg compute i.now _ (Bool.not_eq_true _ ▸ h1)]
    intro _
    rw [hact]; exact h (Or.inr (Or.inl (hA ▸ Bool.not_eq_true _ ▸ h1)))

lemma applyOp_safe (cfg : Config) (compute) (op : Op) (s : HState)
    (h : humiditySafe s) : humiditySafe (applyOp cfg compute op s) := by
  cases op with
  | tick i => exact runTick_safe cfg compute i s h
  | toggleHum b =>
    cases b with
    | false =>
      rw [applyOp, toggleHumidityControl_false_eq]
      intro _; exact ⟨rfl, rfl, rfl⟩
    | true =>
      rw [applyOp, toggleHumidityControl_true_eq]
      intro hant
      simp only at hant
      rcases hant with hc | hc | hc
      · exact h (Or.inl hc)
      · simp_all
      · exact h (Or.inr (Or.inr hc))
  | holdStop =>
    rw [applyOp, holdStopHumidity, toggleHumidityControl_false_eq]
    intro _; exact ⟨rfl, rfl, rfl⟩
  | fanToggle oc b =>
    obtain ⟨h1, h2, h3, h4⟩ := retryToggleFanGo_humidity_fields oc b
      RETRIES_MAX 0 s
    rw [applyOp]
    unfold humiditySafe
    rw [retryToggleFan] at *
    rw [h1, h2, h3, h4]
    exact h

lemma runOps_safe (cfg : Config) (compute) (ops : List Op) :
    ∀ s : HState, humiditySafe s → humiditySafe (runOps cfg compute ops s) := by
  induction ops with
  | nil => intro s h; exact h
  | cons op ops ih =>
    intro s h
    exact ih _ (applyOp_safe cfg compute op s h)

lemma initState_safe : humiditySafe initState := by
  intro _; exact ⟨rfl, rfl, rfl⟩


/-! ## C2: fail-safe on failed reading -/

/-- C2: on every tick of `run` where humidity control is active and the
humidity reading is not ok, the post-tick state has error handling active,
the pump at duty 0 and both valves closed; and in every reachable state the
humidity actuators are de-energized whenever the reading is failed (or
control is off, or error handling is active), so the actuators are never
left energized while the sensor read has failed. -/
theorem C2_failsafe_on_error :
    (∀ (cfg : Config) (compute : PIDState → ℚ → ℚ → Nat → ℚ × PIDState)
        (i : DaqIn) (s : HState), humiditySafe s →
      (daqStep cfg i s).humidityControlActive = true →
      (daqStep cfg i s).humidityOK = false →
      (runTick cfg compute i s).humidityErrorHandlingActive = true ∧
        actuatorsOff (runTick cfg compute i s).act) ∧
    (∀ (cfg : Config) (compute : PIDState → ℚ → ℚ → Nat → ℚ × PIDState)
        (ops : List Op), humiditySafe (runOps cfg compute ops initState)) := by
  constructor
  · intro cfg compute i s hs h1 h2
    obtain ⟨hact, hA, hE⟩ := daqStep_preserves cfg i s
    unfold runTick
    by_cases h4 : (daqStep cfg i s).humidityErrorHandlingActive = true
    · rw [controlStep_error_pending cfg compute i.now _ h1 h2 h4]
      refine ⟨h4, ?_⟩
      rw [hact]
      exact hs (Or.inl (hE ▸ h4))
    · rw [controlStep_failsafe_eq cfg compute i.now _ h1 h2
        (Bool.not_eq_true _ ▸ h4)]
      exact ⟨rfl, rfl, rfl, rfl⟩
  · intro cfg compute ops
    exact runOps_safe cfg compute ops initState initState_safe

/-- Witness for C2: a concrete tick on an active controller with a failed
reading enters error handling with pump and valves off. -/
theorem C2_failsafe_on_error_witness :
    HState.humidityErrorHandlingActive
        (runTick cfg60 (computeConst 0) ⟨0, false, false, 0, false, 0⟩
          { initState with humidityControlActive := true }) = true ∧
      actuatorsOff (runTick cfg60 (computeConst 0) ⟨0, false, false, 0, false, 0⟩
        { initState with humidityControlActive := true }).act :=
  C2_failsafe_on_error.1 cfg60 (computeConst 0) ⟨0, false, false, 0, false, 0⟩
    { initState with humidityControlActive := true }
    (fun _ => ⟨rfl, rfl, rfl⟩) (by decide) (by decide)

/-! ## C5: the error-handling flag discipline -/


/-- Counterexample to C5 as stated: after enabling humidity control, one
tick with a failed humidity reading, and a completed hold-to-stop gesture,
the reachable state has `humidityErrorHandlingActive_ = true` while
`humidityControlActive_ = false` — `toggleHumidityControl(false)` does not
clear the error-handling flag, so the claimed invariant
(`errorHandlingActive → active ∧ ¬ok`) fails. -/
theorem C5_errH_invariant_counterexample :
    HState.humidityErrorHandlingActive
        (runOps cfg60 (computeConst 0) C5ops initState) = true ∧
      HState.humidityControlActive
        (runOps cfg60 (computeConst 0) C5ops initState) = false := by
  decide

/-- C5 (amended): the error-handling flag can become true only during a tick
of `run` in which humidity control is active and the (post-acquisition)
humidity reading is not ok; no other operation (`toggleHumidityControl` in
either direction, the hold-to-stop gesture, the retried fan toggle) changes
the flag — in particular disabling humidity control while error handling is
active leaves the flag set, so the flag may remain true while control is
inactive or after the reading recovers. -/
theorem C5_error_flag_discipline :
    (∀ (cfg : Config) (compute : PIDState → ℚ → ℚ → Nat → ℚ × PIDState)
        (i : DaqIn) (s : HState),
      s.humidityErrorHandlingActive = false →
      (runTick cfg compute i s).humidityErrorHandlingActive = true →
      s.humidityControlActive = true ∧ (daqStep cfg i s).humidityOK = false) ∧
    (∀ (s : HState) (b : Bool),
      (toggleHumidityControl b s).humidityErrorHandlingActive =
        s.humidityErrorHandlingActive) ∧
    (∀ s : HState,
      (holdStopHumidity s).humidityErrorHandlingActive =
        s.humidityErrorHandlingActive) ∧
    (∀ (oc : Nat → Bool) (b : Bool) (s : HState),
      (retryToggleFan oc b s).2.humidityErrorHandlingActive =
        s.humidityErrorHandlingActive) := by
  refine ⟨?_, ?_, ?_, ?_⟩
  · intro cfg compute i s hE0 hset
    obtain ⟨hact, hA, hE⟩ := daqStep_preserves cfg i s
    have hE' : (daqStep cfg i s).humidityErrorHandlingActive = false :=
      hE.trans hE0
    unfold runTick at hset
    by_cases h1 : (daqStep cfg i s).humidityControlActive = true
    · by_cases h2 : (daqStep cfg i s).humidityOK = true
      · by_cases h3 : (daqStep cfg i s).newHumidityReadingControl = true
        · rw [controlStep_actuate_eq cfg compute i.now _ h1 h2 h3 hE'] at hset
          simp only at hset
          rw [hE'] at hset
          exact absurd hset (by simp)
        · rw [controlStep_not_fresh cfg compute i.now _ h1 h2
            (Bool.not_eq_true _ ▸ h3)] at hset
          rw [hE'] at hset
          exact absurd hset (by simp)
      · exact ⟨hA ▸ h1, Bool.not_eq_true _ ▸ h2⟩
    · rw [controlStep_not_active cfg compute i.now _
        (Bool.not_eq_true _ ▸ h1)] at hset
      rw [hE'] at hset
      exact absurd hset (by simp)
  · intro s b
    cases b with
    | false => rw [toggleHumidityControl_false_eq]
    | true => rw [toggleHumidityControl_true_eq]
  · intro s
    rw [holdStopHumidity, toggleHumidityControl_false_eq]
  · intro oc b s
    exact (retryToggleFanGo_humidity_fields oc b RETRIES_MAX 0 s).2.2.1

/-- Witness for C5: the flag-setting tick of the counterexample trace indeed
happens while control is active with a failed reading. -/
theorem C5_error_flag_discipline_witness :
    (toggleHumidityControl true initState).humidityControlActive = true ∧
      (daqStep cfg60 ⟨0, false, false, 0, false, 0⟩
        (toggleHumidityControl true initState)).humidityOK = false :=
  C5_error_flag_discipline.1 cfg60 (computeConst 0)
    ⟨0, false, false, 0, false, 0⟩ (toggleHumidityControl true initState)
    (by decide) (by decide)

/-! ## C4: recovery from a failed reading -/

/-- C4: when the reading became ok again while error handling is active and
humidity control is active, the tick consuming the next fresh-for-control
flag clears the error-handling state, resets the PID history and seeds its
last-input with the current humidity and its last-time with the current
clock, consumes the flag, and performs no actuator change and no output
computation; a tick without a pending fresh-for-control flag also changes
nothing, and actuation (PID compute plus pump/valve commands) happens
exactly on a subsequent tick with a fresh-for-control flag pending and
error handling already cleared. -/
theorem C4_recovery_seeds_pid (cfg : Config)
    (compute : PIDState → ℚ → ℚ → Nat → ℚ × PIDState) (now : Nat)
    (s : HState) :
    (s.humidityControlActive = true → s.humidityOK = true →
      s.newHumidityReadingControl = true →
      s.humidityErrorHandlingActive = true →
      (controlStep cfg compute now s).humidityErrorHandlingActive = false ∧
        (controlStep cfg compute now s).pid = ⟨0, s.humidity, now⟩ ∧
        (controlStep cfg compute now s).act = s.act ∧
        (controlStep cfg compute now s).humidityControlOutput =
          s.humidityControlOutput ∧
        (controlStep cfg compute now s).newHumidityReadingControl = false) ∧
    (s.humidityControlActive = true → s.humidityOK = true →
      s.newHumidityReadingControl = false →
      controlStep cfg compute now s = s) ∧
    (s.humidityControlActive = true → s.humidityOK = true →
      s.newHumidityReadingControl = true →
      s.humidityErrorHandlingActive = false →
      (controlStep cfg compute now s).act =
        applyHumidityControlOutput cfg.pumpDutyCycleMin cfg.pumpDutyCycleMax
          (compute s.pid s.humidity s.humidityTarget now).1 s.act) := by
  refine ⟨?_, ?_, ?_⟩
  · intro hA hOK hF hE
    rw [controlStep_recovery_eq cfg compute now s hA hOK hF hE]
    exact ⟨rfl, rfl, rfl, rfl, rfl⟩
  · intro hA hOK hF
    exact controlStep_not_fresh cfg compute now s hA hOK hF
  · intro hA hOK hF hE
    rw [controlStep_actuate_eq cfg compute now s hA hOK hF hE]

/-- Witness for C4: a concrete recovery tick at humidity 55 and clock 2000
seeds the PID with `(55, 2000)`, clears the error flag and leaves the
actuators untouched. -/
theorem C4_recovery_seeds_pid_witness :
    HState.humidityErrorHandlingActive
        (controlStep cfg60 (computeConst 120) 2000
          { initState with humidityControlActive := true, humidityOK := true,
                           newHumidityReadingControl := true,
                           humidityErrorHandlingActive := true,
                           humidity := 55 }) = false ∧
      HState.pid
        (controlStep cfg60 (computeConst 120) 2000
          { initState with humidityControlActive := true, humidityOK := true,
                           newHumidityReadingControl := true,
                           humidityErrorHandlingActive := true,
                           humidity := 55 }) = ⟨0, 55, 2000⟩ ∧
      HState.act
        (controlStep cfg60 (computeConst 120) 2000
          { initState with humidityControlActive := true, humidityOK := true,
                           newHumidityReadingControl := true,
                           humidityErrorHandlingActive := true,
                           humidity := 55 }) = initState.act := by
  have h := (C4_recovery_seeds_pid cfg60 (computeConst 120) 2000
    { initState with humidityControlActive := true, humidityOK := true,
                     newHumidityReadingControl := true,
                     humidityErrorHandlingActive := true,
                     humidity := 55 }).1 rfl rfl rfl rfl
  exact ⟨h.1, h.2.1, h.2.2.1⟩

/-! ## C6: input editor invariants -/

/-- Counterexample to C6 as stated: after the legal key sequence `5`, `.`
(with `fieldMaxChars = 4`, `fieldMaxDecimals = 1`) the entered-character
count is 2 while `integerDigits + decimalDigits = 1` — `inputCharCount_`
also counts the decimal point, so the claimed equality
`digitsEntered = integerDigits + decimalDigits` fails. -/
theorem C6_digit_count_counterexample :
    InputState.inputCharCount
        (runInputEvents 4 1 resetInputVars [.num 5, .dot]) ≠
      InputState.inputIntCount
          (runInputEvents 4 1 resetInputVars [.num 5, .dot]) +
        InputState.inputDecimalCount
          (runInputEvents 4 1 resetInputVars [.num 5, .dot]) := by
  decide

/-- C6 (amended): for every sequence of digit, decimal-point and delete key
events applied from the reset state, the entered-character count equals
`integerDigits + decimalDigits` **plus one if the decimal point is present**
(the decimal point is not a digit but does occupy one character of the
field's budget); the entered-character count never exceeds the field's
maximum character count; the decimal-digit count never exceeds the field's
maximum decimals; and a decimal point is inserted (i.e. the dot key changes
the editor state) only if no decimal point is already present and at least
one integer digit has already been entered. -/
theorem C6_editor_invariants :
    (∀ (charMax decimalsMax : Nat) (es : List InputEvent),
      InputState.inputCharCount
          (runInputEvents charMax decimalsMax resetInputVars es) =
        InputState.inputIntCount
            (runInputEvents charMax decimalsMax resetInputVars es) +
          InputState.inputDecimalCount
            (runInputEvents charMax decimalsMax resetInputVars es) +
          (if InputState.decimalUsed
              (runInputEvents charMax decimalsMax resetInputVars es)
            then 1 else 0) ∧
        InputState.inputCharCount
          (runInputEvents charMax decimalsMax resetInputVars es) ≤ charMax ∧
        InputState.inputDecimalCount
          (runInputEvents charMax decimalsMax resetInputVars es) ≤
            decimalsMax) ∧
    (∀ (charMax decimalsMax : Nat) (s : InputState),
      handleInputDot charMax decimalsMax s ≠ s →
      s.decimalUsed = false ∧ 0 < s.inputIntCount) := by
  constructor
  · intro charMax decimalsMax es
    obtain ⟨h1, h2, h3, _⟩ := inputInv_run charMax decimalsMax es
      resetInputVars (inputInv_reset charMax decimalsMax)
    exact ⟨h1, h2, h3⟩
  · intro charMax decimalsMax s hne
    by_cases hc : 0 < decimalsMax ∧ s.inputCharCount < charMax ∧
        s.decimalUsed = false ∧ 0 < s.inputIntCount
    · exact ⟨hc.2.2.1, hc.2.2.2⟩
    · exact absurd (by simp [handleInputDot, hc]) hne

/-- Witness for C6: the spec's own worked example — keys `5, 0, ., 5` with a
4-character, 1-decimal field — satisfies the amended counting invariant,
and a dot key that changes the state from `"5"` entered indeed had no prior
decimal point and a nonzero integer-digit count. -/
theorem C6_editor_invariants_witness :
    (InputState.inputCharCount
        (runInputEvents 4 1 resetInputVars [.num 5, .num 0, .dot, .num 5]) =
      InputState.inputIntCount
          (runInputEvents 4 1 resetInputVars [.num 5, .num 0, .dot, .num 5]) +
        InputState.inputDecimalCount
          (runInputEvents 4 1 resetInputVars [.num 5, .num 0, .dot, .num 5]) +
        (if InputState.decimalUsed
            (runInputEvents 4 1 resetInputVars [.num 5, .num 0, .dot, .num 5])
          then 1 else 0)) ∧
      InputState.decimalUsed (runInputEvents 4 1 resetInputVars [.num 5]) =
          false ∧
        0 < InputState.inputIntCount
          (runInputEvents 4 1 resetInputVars [.num 5]) :=
  ⟨((C6_editor_invariants.1 4 1 [.num 5, .num 0, .dot, .num 5]).1),
    C6_editor_invariants.2 4 1 (runInputEvents 4 1 resetInputVars [.num 5])
      (by decide)⟩

/-! ## C7: saveInput range validation -/

/-- C7: for every call `saveInput(humidity, target, min, max)` (with
`min ≤ max`, as at both call sites): an entered value strictly above `max`
returns `false`, routes to the max-value error screen and leaves the target
unchanged; an entered value strictly below `min` returns `false`, routes to
the min-value error screen and leaves the target unchanged; otherwise
(`min ≤ value ≤ max`, boundaries inclusive) the entered value is stored into
the target and `true` is returned.  In particular with `min = 0`,
`max = 100`: `150` is rejected to the max-error screen, while `100` and `0`
are both accepted. -/
theorem C7_saveInput_range_check (v t mn mx : ℚ) :
    (mx < v → saveInput v t mn mx = (false, t, some SCREEN_PAGE.MAXVAL)) ∧
    (mn ≤ mx → v < mn →
      saveInput v t mn mx = (false, t, some SCREEN_PAGE.MINVAL)) ∧
    (mn ≤ v → v ≤ mx → saveInput v t mn mx = (true, v, none)) ∧
    saveInput 150 t 0 100 = (false, t, some SCREEN_PAGE.MAXVAL) ∧
    saveInput 100 t 0 100 = (true, 100, none) ∧
    saveInput 0 t 0 100 = (true, 0, none) := by
  refine ⟨?_, ?_, ?_, ?_, ?_, ?_⟩
  · intro h
    rw [saveInput, if_pos h]
  · intro hmm h
    rw [saveInput, if_neg (by linarith), if_pos h]
  · intro h1 h2
    rw [saveInput, if_neg (by linarith), if_neg (by linarith)]
  · rw [saveInput, if_pos (by norm_num)]
  · rw [saveInput, if_neg (by norm_num), if_neg (by norm_num)]
  · rw [saveInput, if_neg (by norm_num), if_neg (by norm_num)]

/-- Witness for C7: the boundary checks at `min = 0`, `max = 100` with the
target previously `50`. -/
theorem C7_saveInput_range_check_witness :
    saveInput 150 50 0 100 = (false, 50, some SCREEN_PAGE.MAXVAL) ∧
      saveInput 100 50 0 100 = (true, 100, none) ∧
      saveInput 0 50 0 100 = (true, 0, none) :=
  ⟨(C7_saveInput_range_check 150 50 0 100).1 (by norm_num),
    (C7_saveInput_range_check 100 50 0 100).2.2.1 (by norm_num) le_rfl,
    (C7_saveInput_range_check 0 50 0 100).2.2.1 le_rfl (by norm_num)⟩

/-! ## C8: serial command parsing -/

/-- C8: `"^d@"` (followed by newline) parses successfully with command
selector `d` and zero parameters; `"^s@"` likewise with selector `s`;
`"^x@"` fails (unknown selector); `"^d@garbage"` fails (content follows the
END byte); `"d@"` (missing START) fails while consuming exactly one byte of
the input to resynchronize; and in the generalized fragment-collection
phase, failure results whenever fewer separator-delimited fragments are
available than the selector requires, or fragments remain after the
required count was reached. -/
theorem C8_processIncoming_cases :
    processIncoming ("^d@\n".toList) =
        (true, some [['d']], []) ∧
      processIncoming ("^s@\n".toList) = (true, some [['s']], []) ∧
      processIncoming ("^x@\n".toList) = (false, none, []) ∧
      processIncoming ("^d@garbage\n".toList) = (false, none, []) ∧
      processIncoming ("d@\n".toList) = (false, none, "@\n".toList) ∧
      (∀ (table : Char → Option Nat) (t : List Char)
          (rest : List (List Char)) (pc : Nat),
        table (t.headD ' ') = some pc →
        ((t :: rest).length < pc + 1 →
          collectFragments table (t :: rest) = none) ∧
        (pc + 1 < (t :: rest).length →
          collectFragments table (t :: rest) = none)) := by
  refine ⟨by decide, by decide, by decide, by decide, by decide, ?_⟩
  intro table t rest pc hsel
  constructor
  · intro h
    rw [collectFragments, hsel]
    simp only [List.length_cons] at h ⊢
    simp
    omega
  · intro h
    have h2 : ¬ (t :: rest).length < pc + 1 := by omega
    rw [collectFragments, hsel]
    simp only [List.length_cons] at h h2 ⊢
    simp
    omega

/-- Witness for C8: with a selector requiring 2 parameters, one available
parameter is too few and three are too many. -/
theorem C8_processIncoming_cases_witness :
    collectFragments (fun _ => some 2) [['d'], ['1']] = none ∧
      collectFragments (fun _ => some 2) [['d'], ['1'], ['2'], ['3']] = none :=
  ⟨(C8_processIncoming_cases.2.2.2.2.2 (fun _ => some 2) ['d'] [['1']] 2
      rfl).1 (by decide),
    (C8_processIncoming_cases.2.2.2.2.2 (fun _ => some 2) ['d']
      [['1'], ['2'], ['3']] 2 rfl).2 (by decide)⟩

/-! ## C10: fan disable atomicity -/

lemma retryToggleFanGo_all_fail (oc : Nat → Bool) (h : ∀ k, oc k = false) :
    ∀ fuel tries (s : HState),
      retryToggleFanGo oc false tries fuel s = (false, s) := by
  intro fuel
  induction fuel with
  | zero => intro tries s; rfl
  | succ n ih =>
    intro tries s
    unfold retryToggleFanGo
    by_cases hlt : tries < RETRIES_MAX
    · rw [if_pos hlt]
      have hb : toggleFanSpeedControl (oc tries) false s = (false, s) := by
        rw [h tries, toggleFanSpeedControl]
        simp
      rw [hb]
      simp only [Bool.false_eq_true, if_false]
      exact ih (tries + 1) s
    · rw [if_neg hlt]

/-- C10: when `toggleFanSpeedControl(false)` is invoked and the underlying
`setFanSpeedTarget(0)` bus write fails, the function returns `false` and
changes nothing; consequently even after 10 failed retries the system
remains fully in the enabled state — `fanSpeedControlActive_` still true,
the fan power rail still powered and the fan LED still lit — never
half-disabled. -/
theorem C10_fan_disable_atomic (s : HState) :
    toggleFanSpeedControl false false s = (false, s) ∧
    (∀ oc : Nat → Bool, (∀ k, oc k = false) →
      retryToggleFan oc false s = (false, s)) ∧
    (s.fanSpeedControlActive = true → s.fanPowered = true → s.ledFan = true →
      ∀ oc : Nat → Bool, (∀ k, oc k = false) →
        (retryToggleFan oc false s).1 = false ∧
          (retryToggleFan oc false s).2.fanSpeedControlActive = true ∧
          (retryToggleFan oc false s).2.fanPowered = true ∧
          (retryToggleFan oc false s).2.ledFan = true) := by
  have hbase : toggleFanSpeedControl false false s = (false, s) := by
    rw [toggleFanSpeedControl]
    simp
  refine ⟨hbase, ?_, ?_⟩
  · intro oc h
    exact retryToggleFanGo_all_fail oc h RETRIES_MAX 0 s
  · intro hA hP hL oc h
    rw [retryToggleFan, retryToggleFanGo_all_fail oc h RETRIES_MAX 0 s]
    exact ⟨rfl, hA, hP, hL⟩

/-- Witness for C10: from the fully enabled fan state, ten failed disable
attempts leave the state untouched and report failure. -/
theorem C10_fan_disable_atomic_witness :
    (retryToggleFan (fun _ => false) false
        { initState with fanSpeedControlActive := true, fanPowered := true,
                         ledFan := true }).1 = false ∧
      HState.fanSpeedControlActive
        (retryToggleFan (fun _ => false) false
          { initState with fanSpeedControlActive := true, fanPowered := true,
                           ledFan := true }).2 = true ∧
      HState.fanPowered
        (retryToggleFan (fun _ => false) false
          { initState with fanSpeedControlActive := true, fanPowered := true,
                           ledFan := true }).2 = true ∧
      HState.ledFan
        (retryToggleFan (fun _ => false) false
          { initState with fanSpeedControlActive := true, fanPowered := true,
                           ledFan := true }).2 = true :=
  (C10_fan_disable_atomic
      { initState with fanSpeedControlActive := true, fanPowered := true,
                       ledFan := true }).2.2 rfl rfl rfl
    (fun _ => false) (fun _ => rfl)

/-! ## C9: trigger/fetch settle-delay ordering -/


lemma controlStep_daq_fields (cfg : Config) (compute) (now : Nat)
    (s : HState) :
    (controlStep cfg compute now s).DAQTimerStart = s.DAQTimerStart ∧
      (controlStep cfg compute now s).humidityTriggered =
        s.humidityTriggered ∧
      (controlStep cfg compute now s).humidityTriggeredOK =
        s.humidityTriggeredOK := by
  unfold controlStep
  split_ifs <;> simp_all <;> split_ifs <;> simp_all

lemma daqStep_no_fetch_eq (cfg : Config) (i : DaqIn) (s : HState)
    (htrig : s.humidityTriggered = true)
    (hnf : ¬ PERIOD_DAQ ≤ i.now - s.DAQTimerStart) :
    daqStep cfg i s = s := by
  unfold daqStep
  split_ifs with h1 h2 h3
  · exact absurd h2.2 hnf
  · exact absurd htrig (by simp_all)
  · rfl
  · rfl

lemma runTick_trigger_daq_fields (cfg : Config) (compute) (i : DaqIn)
    (s : HState) (h : triggersAt cfg i s) :
    (runTick cfg compute i s).DAQTimerStart = s.DAQTimerStart ∧
      (runTick cfg compute i s).humidityTriggered = true ∧
      (runTick cfg compute i s).humidityTriggeredOK = i.trigOK := by
  obtain ⟨houter, htrig⟩ := h
  have hdaq : daqStep cfg i s =
      { s with humidityTriggeredOK := i.trigOK, humidityTriggered := true } := by
    unfold daqStep
    rw [if_pos houter, if_neg (by simp [htrig]), if_pos (by simp [htrig])]
  obtain ⟨c1, c2, c3⟩ := controlStep_daq_fields cfg compute i.now
    (daqStep cfg i s)
  rw [runTick]
  rw [c1, c2, c3, hdaq]
  exact ⟨rfl, rfl, rfl⟩

lemma runTicks_noFetch_daq_fields (cfg : Config) (compute) :
    ∀ (ticks : List DaqIn) (s : HState), s.humidityTriggered = true →
      noFetchRun cfg compute ticks s →
      (runTicks cfg compute ticks s).DAQTimerStart = s.DAQTimerStart ∧
        (runTicks cfg compute ticks s).humidityTriggered = true ∧
        (runTicks cfg compute ticks s).humidityTriggeredOK =
          s.humidityTriggeredOK := by
  intro ticks
  induction ticks with
  | nil => intro s h _; exact ⟨rfl, h, rfl⟩
  | cons i ticks ih =>
    intro s h hnf
    obtain ⟨hni, hrest⟩ := hnf
    have hne : ¬ PERIOD_DAQ ≤ i.now - s.DAQTimerStart := fun hc =>
      hni ⟨hc, h⟩
    have hdaq : daqStep cfg i s = s := daqStep_no_fetch_eq cfg i s h hne
    obtain ⟨c1, c2, c3⟩ := controlStep_daq_fields cfg compute i.now
      (daqStep cfg i s)
    have hstep : (runTick cfg compute i s).DAQTimerStart = s.DAQTimerStart ∧
        (runTick cfg compute i s).humidityTriggered = true ∧
        (runTick cfg compute i s).humidityTriggeredOK =
          s.humidityTriggeredOK := by
      rw [runTick, c1, c2, c3, hdaq]
      exact ⟨rfl, h, rfl⟩
    obtain ⟨g1, g2, g3⟩ := ih (runTick cfg compute i s) hstep.2.1 hrest
    rw [runTicks]
    exact ⟨g1.trans hstep.1, g2, g3.trans hstep.2.2⟩

/-- Counterexample to C9 as stated: with sparse polling of `run()` the
trigger can be issued late (here at `t = 2000` ms with `DAQTimerStart_ = 0`)
and the paired fetch then occurs on the very next tick (`t = 2001` ms), only
1 ms — far less than the `315` ms settle delay — after the trigger; the
fetch genuinely completes, as the post-tick state records a fresh ok
reading. -/
theorem C9_settle_counterexample :
    triggersAt cfg60 ⟨2000, true, true, 0, true, 0⟩ initState ∧
      fetchesAt ⟨2001, true, true, 50, true, 0⟩
        (runTick cfg60 (computeConst 0) ⟨2000, true, true, 0, true, 0⟩
          initState) ∧
      2001 < 2000 + cfg60.settle ∧
      HState.humidityOK
        (runTick cfg60 (computeConst 0) ⟨2001, true, true, 50, true, 0⟩
          (runTick cfg60 (computeConst 0) ⟨2000, true, true, 0, true, 0⟩
            initState)) = true := by
  decide

/-- C9 (amended): provided the trigger tick is timely — it occurs no later
than `DAQTimerStart_ + (PERIOD_DAQ - PERIOD_DAQ_HUMIDITY_TRIGGER)` ms, as
happens whenever `run()` is polled at least once per millisecond — every
humidity fetch occurs at least the settle delay
(`PERIOD_DAQ_HUMIDITY_TRIGGER` ms) after its paired trigger.  Without the
timeliness hypothesis the property fails (see the counterexample). -/
theorem C9_fetch_after_settle (cfg : Config)
    (compute : PIDState → ℚ → ℚ → Nat → ℚ × PIDState) (s : HState)
    (iTrig : DaqIn) (ticks : List DaqIn) (iFetch : DaqIn)
    (hsettle : cfg.settle ≤ PERIOD_DAQ)
    (htrig : triggersAt cfg iTrig s)
    (htimely : iTrig.now ≤ s.DAQTimerStart + (PERIOD_DAQ - cfg.settle))
    (hnf : noFetchRun cfg compute ticks (runTick cfg compute iTrig s))
    (hfetch : fetchesAt iFetch
      (runTicks cfg compute ticks (runTick cfg compute iTrig s))) :
    iTrig.now + cfg.settle ≤ iFetch.now := by
  obtain ⟨t1, t2, _⟩ := runTick_trigger_daq_fields cfg compute iTrig s htrig
  obtain ⟨g1, _, _⟩ := runTicks_noFetch_daq_fields cfg compute ticks
    (runTick cfg compute iTrig s) t2 hnf
  have hT : (runTicks cfg compute ticks
      (runTick cfg compute iTrig s)).DAQTimerStart = s.DAQTimerStart :=
    g1.trans t1
  have hge := hfetch.1
  rw [hT] at hge
  have hP : PERIOD_DAQ = 1000 := rfl
  omega

/-- Witness for C9 (amended): a timely trigger at `t = 685` followed by the
fetch at `t = 1000` respects the 315 ms settle delay. -/
theorem C9_fetch_after_settle_witness :
    (cfg60.settle ≤ PERIOD_DAQ ∧
      triggersAt cfg60 ⟨685, true, true, 0, true, 0⟩ initState ∧
      fetchesAt ⟨1000, true, true, 50, true, 0⟩
        (runTick cfg60 (computeConst 0) ⟨685, true, true, 0, true, 0⟩
          initState)) ∧
    685 + cfg60.settle ≤ 1000 :=
  ⟨⟨by decide, by decide, by decide⟩,
    C9_fetch_after_settle cfg60 (computeConst 0) initState
      ⟨685, true, true, 0, true, 0⟩ [] ⟨1000, true, true, 50, true, 0⟩
      (by decide) (by decide) (by decide) trivial (by decide)⟩

/-! ## C1: humidity actuation rule -/

/-- C1: on a tick where humidity control is active, the reading is ok, a
fresh-for-control flag is pending and the policy is not recovering from
error, the actuators end up as `applyHumidityControlOutput` applied to the
PID output `O`; and that rule is: `dutyMin ≤ O` opens the wet valve, closes
the dry valve and drives the pump at 255 when `dutyMax ≤ O` and at `O`
(truncated to `uint8_t`) otherwise; `O < 0` with `dutyMin ≤ -O` opens the
dry valve, closes the wet valve and drives the pump at 255 when
`dutyMax ≤ -O` and at `-O` otherwise; all other outputs set the pump duty to
0 and close both valves.  With `dutyMin = 60`, `dutyMax = 255`: `O = 30`
gives pump 0 and both valves closed, `O = 120` gives wet open, dry closed,
pump 120, `O = 300` gives pump 255, `O = -80` gives dry open, pump 80, and
`O = -10` gives the deadband outcome. -/
theorem C1_actuation_rule (cfg : Config)
    (compute : PIDState → ℚ → ℚ → Nat → ℚ × PIDState) (now : Nat) (s : HState)
    (hA : s.humidityControlActive = true) (hOK : s.humidityOK = true)
    (hF : s.newHumidityReadingControl = true)
    (hE : s.humidityErrorHandlingActive = false) :
    ((controlStep cfg compute now s).act =
      applyHumidityControlOutput cfg.pumpDutyCycleMin cfg.pumpDutyCycleMax
        (compute s.pid s.humidity s.humidityTarget now).1 s.act) ∧
    (∀ (dutyMin dutyMax : Nat) (O : ℚ) (a : Actuators),
      ((dutyMin : ℚ) ≤ O →
        applyHumidityControlOutput dutyMin dutyMax O a =
          ⟨if (dutyMax : ℚ) ≤ O then 255 else ratToUInt8 O,
           if (dutyMax : ℚ) ≤ O then 255 else ratToUInt8 O, false, true⟩) ∧
      (O < 0 → (dutyMin : ℚ) ≤ -O →
        applyHumidityControlOutput dutyMin dutyMax O a =
          ⟨if (dutyMax : ℚ) ≤ -O then 255 else ratToUInt8 (-O),
           if (dutyMax : ℚ) ≤ -O then 255 else ratToUInt8 (-O), true, false⟩) ∧
      (¬ (dutyMin : ℚ) ≤ O → ¬ (O < 0 ∧ (dutyMin : ℚ) ≤ -O) →
        applyHumidityControlOutput dutyMin dutyMax O a = ⟨0, 0, false, false⟩)) ∧
    (∀ a : Actuators,
      applyHumidityControlOutput 60 255 30 a = ⟨0, 0, false, false⟩ ∧
      applyHumidityControlOutput 60 255 120 a = ⟨120, 120, false, true⟩ ∧
      applyHumidityControlOutput 60 255 300 a = ⟨255, 255, false, true⟩ ∧
      applyHumidityControlOutput 60 255 (-80) a = ⟨80, 80, true, false⟩ ∧
      applyHumidityControlOutput 60 255 (-10) a = ⟨0, 0, false, false⟩) := by
  refine ⟨?_, ?_, ?_⟩
  · simp [controlStep, hA, hOK, hF, hE]
  · intro dutyMin dutyMax O a
    have hmin : (0 : ℚ) ≤ (dutyMin : ℚ) := by positivity
    refine ⟨?_, ?_, ?_⟩
    · intro h
      simp only [applyHumidityControlOutput, if_pos h]
      split_ifs <;> rfl
    · intro hneg h
      have hnot : ¬ (dutyMin : ℚ) ≤ O := by linarith
      simp only [applyHumidityControlOutput, if_neg hnot, hneg, true_and,
        if_pos h]
      split_ifs <;> rfl
    · intro h1 h2
      simp only [applyHumidityControlOutput, if_neg h1, if_neg h2]
      rfl
  · intro a
    refine ⟨?_, ?_, ?_, ?_, ?_⟩ <;>
      simp [applyHumidityControlOutput, setPumpDutyCycle, ratToUInt8] <;>
      norm_num

/-- Witness for C1: a concrete tick with `dutyMin = 60`, `dutyMax = 255` and
a PID oracle outputting 120 ends with the wet valve open, the dry valve
closed and the pump at duty 120. -/
theorem C1_actuation_rule_witness :
    (controlStep ⟨60, 255, 315⟩ (fun p _ _ _ => (120, p)) 1000
        { initState with humidityControlActive := true, humidityOK := true,
                         newHumidityReadingControl := true }).act =
      ⟨120, 120, false, true⟩ := by
  have h := C1_actuation_rule ⟨60, 255, 315⟩ (fun p _ _ _ => (120, p)) 1000
    { initState with humidityControlActive := true, humidityOK := true,
                     newHumidityReadingControl := true }
    rfl rfl rfl rfl
  rw [h.1]
  exact (h.2.2 initState.act).2.1
